import Mathlib

/-!
Verification of the query-evaluation pipeline of `jello` (`src/jello/lib.py`),
centred on the `pyquery` function: wrapping the input data in navigable
`DotMap` nodes, scanning the prelude (`.jelloconf.py`) for option assignments
and validating them, splitting the script into setup statements plus a final
expression, and normalizing the output back to plain JSON values.

The embedding is shallow: Python runtime values relevant to `pyquery` are the
inductive `RawResult`; plain JSON documents are `JSONValue`; the option state
held by `opts` is the structure `Opts`; the prelude scan and validation
(lib.py lines 277-326) is `processPrelude`; the run phase (lines 329-332) is
`runScript`; the output conversion and reserved-name check (lines 334-345) is
`normalizeOutput`.
-/

/-- The plain JSON value domain (input and canonical output shape). -/
inductive JSONValue where
  | null
  | bool (b : Bool)
  | num (n : Int)
  | str (s : String)
  | arr (xs : List JSONValue)
  | obj (kvs : List (String × JSONValue))

/-- Python runtime values that can flow through `pyquery`: plain scalars,
plain lists and dicts, `DotMap` wrapper nodes, and bound methods (the only
values for which `hasattr(x, '__self__')` holds in the masking scenario). -/
inductive RawResult where
  | pynull
  | pybool (b : Bool)
  | pyint (n : Int)
  | pystr (s : String)
  | pylist (xs : List RawResult)
  | pydict (kvs : List (String × RawResult))
  | dotmap (kvs : List (String × RawResult))
  | method (self : String) (name : String)

mutual

/-- Inclusion of plain JSON values into the Python value domain. -/
def embed : JSONValue → RawResult
  | .null => .pynull
  | .bool b => .pybool b
  | .num n => .pyint n
  | .str s => .pystr s
  | .arr xs => .pylist (embedList xs)
  | .obj kvs => .pydict (embedKVs kvs)

def embedList : List JSONValue → List RawResult
  | [] => []
  | x :: xs => embed x :: embedList xs

def embedKVs : List (String × JSONValue) → List (String × RawResult)
  | [] => []
  | (k, v) :: rest => (k, embed v) :: embedKVs rest

end

mutual

/-- Modelled from the spec: `DotMap(d, _dynamic=False, _prevent_method_masking=True)`
(the class lives in `jello/dotmap.py`, which is not under `src/`); per spec
section 4.1 a Mapping is wrapped recursively into a node and Mapping elements
of nested Sequences are wrapped independently while non-Mapping elements stay
plain. -/
def dotWrap : JSONValue → RawResult
  | .null => .pynull
  | .bool b => .pybool b
  | .num n => .pyint n
  | .str s => .pystr s
  | .arr xs => .pylist (dotWrapList xs)
  | .obj kvs => .dotmap (dotWrapKVs kvs)

def dotWrapList : List JSONValue → List RawResult
  | [] => []
  | x :: xs => dotWrap x :: dotWrapList xs

def dotWrapKVs : List (String × JSONValue) → List (String × RawResult)
  | [] => []
  | (k, v) :: rest => (k, dotWrap v) :: dotWrapKVs rest

end

mutual

/-- Modelled from the spec: `DotMap.toDict` / `NavigableAdapter.unwrap`
(`jello/dotmap.py` is not under `src/`); per spec section 4.1 it recursively
converts a node, or a sequence possibly containing nodes, back to plain
values, leaving values that are not nodes untouched. -/
def toDict : RawResult → RawResult
  | .dotmap kvs => .pydict (toDictKVs kvs)
  | .pydict kvs => .pydict (toDictKVs kvs)
  | .pylist xs => .pylist (toDictList xs)
  | v => v

def toDictList : List RawResult → List RawResult
  | [] => []
  | x :: xs => toDict x :: toDictList xs

def toDictKVs : List (String × RawResult) → List (String × RawResult)
  | [] => []
  | (k, v) :: rest => (k, toDict v) :: toDictKVs rest

end

/-- `isinstance(x, DotMap)`. -/
def RawResult.isDotMap : RawResult → Bool
  | .dotmap _ => true
  | _ => false

/-- `hasattr(x, '__self__')`: true exactly for bound methods, the reserved
accessor values that mask data keys. -/
def RawResult.hasSelfAttr : RawResult → Bool
  | .method _ _ => true
  | _ => false

/-- Wrapping of the input data before the query runs (lib.py lines 248-256):
a list gets its dict elements wrapped as `DotMap` and other elements left
plain, a dict is wrapped as `DotMap`, and anything else passes through
unwrapped. -/
def wrapData : JSONValue → RawResult
  | .arr xs => .pylist (xs.map fun i =>
      match i with
      | .obj kvs => dotWrap (.obj kvs)
      | v => embed v)
  | .obj kvs => dotWrap (.obj kvs)
  | v => embed v

/-- Error kinds surfaced by the pipeline.  `reservedName` is the
`ValueError('Reserved key name. ...')` of lib.py line 343; `indexErr` is the
`IndexError` of `pop()` on an empty statement list; `attrErr` is the
`AttributeError` of reading `.value` off a statement node that has no such
field; `nameErr` is a `NameError` during evaluation.  `parseFailure` and
`shapeFailure` model the spec's SyntaxError and ShapeError taxonomy entries;
the run phase of the source never produces them. -/
inductive Err where
  | reservedName
  | indexErr
  | attrErr
  | nameErr
  | parseFailure
  | shapeFailure
  deriving DecidableEq, Repr

/-- The output conversion and reserved-name check (lib.py lines 334-345):
a list gets its top-level `DotMap` elements converted via `toDict` with all
other elements untouched; a `DotMap` result is converted via `toDict`;
anything else is left as is; then a result carrying `__self__` (a bound
method) raises the reserved-name error. -/
def normalizeOutput (output : RawResult) : Except Err RawResult :=
  let converted : RawResult :=
    match output with
    | .pylist xs => .pylist (xs.map fun i => if i.isDotMap then toDict i else i)
    | .dotmap kvs => toDict (.dotmap kvs)
    | o => o
  if converted.hasSelfAttr then .error .reservedName else .ok converted

/-! ## Prelude option scan (lib.py lines 277-326)

The scan walks the parsed `.jelloconf.py` body; for each `ast.Assign` it
stores the evaluated right-hand side into the matching `opts` field (twelve
recognized names) and then, still inside the loop, validates the six boolean
options and the six color options, bulk-resetting an invalid group to `None`
and printing a warning. -/

/-- An already-evaluated Python value as stored into an `opts` field; `unset`
is Python's `None`. -/
inductive PVal where
  | bool (b : Bool)
  | str (s : String)
  | int (n : Int)
  | unset
  deriving DecidableEq, Repr

/-- `isinstance(option, bool)`. -/
def PVal.isBool : PVal → Bool
  | .bool _ => true
  | _ => false

/-- The sixteen recognized color names (lib.py lines 315-316). -/
def validColors : List String :=
  ["black", "red", "green", "yellow", "blue", "magenta", "cyan", "gray",
   "brightblack", "brightred", "brightgreen", "brightyellow", "brightblue",
   "brightmagenta", "brightcyan", "white"]

/-- Negation of the reset condition of lib.py line 317:
`color_config not in valid_colors and color_config is not None`. -/
def PVal.colorOk : PVal → Bool
  | .str s => validColors.contains s
  | .unset => true
  | _ => false

/-- The twelve option fields of `opts` that the prelude scan can set. -/
structure Opts where
  compact : PVal
  raw : PVal
  lines : PVal
  nulls : PVal
  mono : PVal
  schema : PVal
  keyname_color : PVal
  keyword_color : PVal
  number_color : PVal
  string_color : PVal
  arrayid_color : PVal
  arraybracket_color : PVal
  deriving DecidableEq, Repr

/-- The list `[opts.compact, opts.raw, opts.lines, opts.nulls, opts.mono, opts.schema]`
of lib.py line 308. -/
def boolOpts (o : Opts) : List PVal :=
  [o.compact, o.raw, o.lines, o.nulls, o.mono, o.schema]

/-- The list of the six color fields of lib.py lines 313-314. -/
def colorOpts (o : Opts) : List PVal :=
  [o.keyname_color, o.keyword_color, o.number_color, o.string_color,
   o.arrayid_color, o.arraybracket_color]

/-- The bulk reset of lib.py line 310. -/
def resetBools (o : Opts) : Opts :=
  { o with compact := .unset, raw := .unset, lines := .unset,
           nulls := .unset, mono := .unset, schema := .unset }

/-- The bulk reset of lib.py line 318. -/
def resetColors (o : Opts) : Opts :=
  { o with keyname_color := .unset, keyword_color := .unset,
           number_color := .unset, string_color := .unset,
           arrayid_color := .unset, arraybracket_color := .unset }

/-- The two warning prints of lib.py lines 321-326. -/
inductive Warning where
  | options
  | colors
  deriving DecidableEq, Repr

/-- The twelve `if expr.targets[0].id == ...` assignments of lib.py
lines 279-302, applied in source order. -/
def setOption (o : Opts) (target : String) (v : PVal) : Opts :=
  let o := if target == "compact" then { o with compact := v } else o
  let o := if target == "raw" then { o with raw := v } else o
  let o := if target == "lines" then { o with lines := v } else o
  let o := if target == "nulls" then { o with nulls := v } else o
  let o := if target == "mono" then { o with mono := v } else o
  let o := if target == "schema" then { o with schema := v } else o
  let o := if target == "keyname_color" then { o with keyname_color := v } else o
  let o := if target == "keyword_color" then { o with keyword_color := v } else o
  let o := if target == "number_color" then { o with number_color := v } else o
  let o := if target == "string_color" then { o with string_color := v } else o
  let o := if target == "arrayid_color" then { o with arrayid_color := v } else o
  let o := if target == "arraybracket_color" then { o with arraybracket_color := v } else o
  o

/-- The validation block of lib.py lines 304-326, run once per `ast.Assign`:
if any of the six boolean options is not a `bool`, reset all six to `None`
and warn; if any of the six color options is neither a recognized color name
nor `None`, reset all six to `None` and warn.  (The source's `for` loops over
lists captured before any reset, so the reset and the warning flag fire iff
some captured value fails the test.) -/
def validateStep (o : Opts) : Opts × List Warning :=
  let warnOptions := (boolOpts o).any fun p => !p.isBool
  let o := if warnOptions then resetBools o else o
  let warnColors := (colorOpts o).any fun p => !p.colorOk
  let o := if warnColors then resetColors o else o
  (o, (if warnOptions then [Warning.options] else []) ++
      (if warnColors then [Warning.colors] else []))

/-- A top-level statement of the parsed prelude as the option scan sees it:
an `ast.Assign` with its first target's identifier and its evaluated
right-hand side, or any other statement kind (skipped by the scan). -/
inductive CStmt where
  | assign (target : String) (value : PVal)
  | other
  deriving DecidableEq, Repr

/-- One iteration of the `for expr in ast.parse(jelloconf).body` loop
(lib.py lines 277-326): non-assignments are skipped; an assignment stores its
value and then runs the validation block, appending its warnings. -/
def procStmt (st : Opts × List Warning) (s : CStmt) : Opts × List Warning :=
  match s with
  | .other => st
  | .assign t v =>
    let r := validateStep (setOption st.1 t v)
    (r.1, st.2 ++ r.2)

/-- The whole prelude option scan: fold the per-statement step over the
parsed body, starting from the incoming option state with no warnings. -/
def processPrelude (o : Opts) (stmts : List CStmt) : Opts × List Warning :=
  stmts.foldl procStmt (o, [])

/-! ## The run phase (lib.py lines 329-332)

`block = ast.parse(query); last = ast.Expression(block.body.pop().value);
exec(block); output = eval(last)`.  `pop()` on an empty body raises
`IndexError`; `.value` exists on `ast.Expr` (the wrapped expression) and on
`ast.Assign` (the right-hand side) but not on nodes such as `ast.Pass`, where
reading it raises `AttributeError`. -/

/-- Expressions of the query language, shallowly: literal Python values and
variable references (the reserved `_` binding among them). -/
inductive PyExpr where
  | lit (v : RawResult)
  | var (name : String)

/-- Top-level statement nodes of the parsed script, by what `.value` reads
off them: `ast.Expr` holds its expression, `ast.Assign` holds its right-hand
side, and `ast.Pass` stands for the nodes with no `value` field. -/
inductive TopStmt where
  | exprStmt (e : PyExpr)
  | assignStmt (target : String) (e : PyExpr)
  | passStmt

/-- Reading `.value` off a popped statement node: present on `ast.Expr` and
`ast.Assign`, absent (AttributeError) on `ast.Pass`. -/
def stmtValue : TopStmt → Option PyExpr
  | .exprStmt e => some e
  | .assignStmt _ e => some e
  | .passStmt => none

/-- The evaluation scope: a variable environment. -/
abbrev Env := List (String × RawResult)

/-- Expression evaluation against the scope. -/
def evalExpr (env : Env) : PyExpr → Except Err RawResult
  | .lit v => .ok v
  | .var n =>
    match List.lookup n env with
    | some v => .ok v
    | none => .error .nameErr

/-- Executing one setup statement for its effect on the scope. -/
def execStmt (env : Env) : TopStmt → Except Err Env
  | .exprStmt e => do
    let _ ← evalExpr env e
    .ok env
  | .assignStmt t e => do
    let v ← evalExpr env e
    .ok ((t, v) :: env)
  | .passStmt => .ok env

/-- Executing the setup statements in order; the first failure aborts. -/
def execStmts (env : Env) : List TopStmt → Except Err Env
  | [] => .ok env
  | s :: rest => do
    let env' ← execStmt env s
    execStmts env' rest

/-- The run phase of lib.py lines 329-332 on an already-parsed body:
pop the last node (IndexError when the body is empty), read its `.value`
(AttributeError when the node has none), execute the remaining statements,
then evaluate the popped expression in the resulting scope. -/
def runScript (env : Env) (body : List TopStmt) : Except Err RawResult :=
  match body.getLast? with
  | none => .error .indexErr
  | some last =>
    match stmtValue last with
    | none => .error .attrErr
    | some e => do
      let env' ← execStmts env body.dropLast
      evalExpr env' e

/-- The `pyquery` pipeline on plain data and a parsed script body: wrap the
data, bind it to `_`, run the script, normalize the output
(lib.py lines 246-345, the prelude option scan aside). -/
def pyqueryRun (data : JSONValue) (body : List TopStmt) : Except Err RawResult := do
  let out ← runScript [("_", wrapData data)] body
  normalizeOutput out

/-- Scalar JSON values: not an array and not an object. -/
def JSONValue.isScalar : JSONValue → Bool
  | .arr _ => false
  | .obj _ => false
  | _ => true

/-! ## Helper lemmas -/

theorem embed_isDotMap_false (v : JSONValue) : (embed v).isDotMap = false := by
  cases v <;> rfl

theorem embed_hasSelfAttr_false (v : JSONValue) : (embed v).hasSelfAttr = false := by
  cases v <;> rfl

theorem embedList_convert_id (xs : List JSONValue) :
    (embedList xs).map (fun i => if i.isDotMap then toDict i else i) = embedList xs := by
  induction xs with
  | nil => rfl
  | cons x rest ih => simp [embedList, embed_isDotMap_false, ih]

theorem boolOpts_resetColors (o : Opts) : boolOpts (resetColors o) = boolOpts o := rfl

theorem colorOpts_resetBools (o : Opts) : colorOpts (resetBools o) = colorOpts o := rfl

theorem any_not_eq_not_all {α : Type} (l : List α) (f : α → Bool) :
    (l.any fun p => !f p) = !l.all f := by
  simp [List.all_eq_not_any_not]

/-! ## Claim theorems -/

/-- Claim C5: if the value of the final expression is a bound accessor/method
(the reserved-name masking case) rather than data, output normalization fails
with the reserved-name error and no value is returned. -/
theorem reserved_name_top_level (s n : String) :
    normalizeOutput (RawResult.method s n) = .error Err.reservedName := rfl

/-- Claim C6: for every list result of the final expression, output
normalization returns a list of the same length in the same order, in which
each `DotMap` element is converted to its plain dict form via `toDict` and
every other element is returned untouched. -/
theorem list_result_normalization (xs : List RawResult) :
    normalizeOutput (RawResult.pylist xs) =
      .ok (RawResult.pylist (xs.map fun i => if i.isDotMap then toDict i else i)) ∧
    (xs.map fun i => if i.isDotMap then toDict i else i).length = xs.length ∧
    ∀ kvs : List (String × RawResult),
      (if (RawResult.dotmap kvs).isDotMap then toDict (RawResult.dotmap kvs)
       else RawResult.dotmap kvs) = RawResult.pydict (toDictKVs kvs) := by
  refine ⟨?_, ?_, ?_⟩
  · rfl
  · exact List.length_map xs _
  · intro kvs
    rfl

/-- Claim C9: output normalization is idempotent — on every value already in
the plain JSON domain (the image of `embed`, which contains no `DotMap`
node), normalization returns the value unchanged, so normalizing twice
equals normalizing once. -/
theorem normalize_idempotent_on_plain (v : JSONValue) :
    normalizeOutput (embed v) = .ok (embed v) ∧
    Except.bind (normalizeOutput (embed v)) normalizeOutput =
      normalizeOutput (embed v) := by
  have h : normalizeOutput (embed v) = .ok (embed v) := by
    cases v with
    | null => rfl
    | bool b => rfl
    | num n => rfl
    | str s => rfl
    | obj kvs => rfl
    | arr xs =>
      calc normalizeOutput (embed (JSONValue.arr xs))
          = .ok (RawResult.pylist ((embedList xs).map
              fun i => if i.isDotMap then toDict i else i)) := rfl
        _ = .ok (RawResult.pylist (embedList xs)) := by rw [embedList_convert_id]
        _ = .ok (embed (JSONValue.arr xs)) := rfl
  exact ⟨h, by rw [h]; exact h⟩

/-- Claim C10: the reserved-accessor check applies only to the top-level
result: a bound accessor/method occurring as an element of a list returned by
the final expression is left in place and the list is returned without any
reserved-name error. -/
theorem reserved_accessor_in_list_untouched (xs : List RawResult) (k : Nat)
    (s n : String) (h : xs[k]? = some (RawResult.method s n)) :
    ∃ ys, normalizeOutput (RawResult.pylist xs) = .ok (RawResult.pylist ys) ∧
      ys[k]? = some (RawResult.method s n) ∧ ys.length = xs.length := by
  refine ⟨xs.map fun i => if i.isDotMap then toDict i else i, ?_, ?_, ?_⟩
  · rfl
  · rw [List.getElem?_map, h]
    rfl
  · exact List.length_map xs _

/-- Witness for C10 at the concrete list `[bound method]`. -/
theorem reserved_accessor_in_list_untouched_witness :
    ([RawResult.method "d" "keys"])[0]? = some (RawResult.method "d" "keys") ∧
    ∃ ys, normalizeOutput (RawResult.pylist [RawResult.method "d" "keys"]) =
        .ok (RawResult.pylist ys) ∧
      ys[0]? = some (RawResult.method "d" "keys") ∧
      ys.length = ([RawResult.method "d" "keys"]).length :=
  ⟨rfl, reserved_accessor_in_list_untouched [RawResult.method "d" "keys"] 0 "d" "keys" rfl⟩

/-- Claim C2, counterexample: a syntactically valid script whose last (and
only) top-level node is the assignment `x = 5` does not fail with a Shape
error; the run phase pops the assignment, reads its right-hand side off
`.value`, and evaluation succeeds with the value `5`. -/
theorem trailing_assignment_cex :
    pyqueryRun JSONValue.null [TopStmt.assignStmt "x" (PyExpr.lit (RawResult.pyint 5))] =
      .ok (RawResult.pyint 5) := rfl

/-- Claim C2, amended: when the last top-level node is an assignment, no
error is raised at all — the script behaves exactly as if the assignment's
right-hand side were the trailing expression; a last node with no `value`
field (such as `pass`) fails with an attribute error before any setup
statement is executed. -/
theorem trailing_assignment_behavior (env : Env) (rest : List TopStmt)
    (t : String) (e : PyExpr) :
    runScript env (rest ++ [TopStmt.assignStmt t e]) =
      runScript env (rest ++ [TopStmt.exprStmt e]) ∧
    runScript env (rest ++ [TopStmt.passStmt]) = .error Err.attrErr := by
  constructor
  · simp [runScript, List.getLast?_concat, List.dropLast_concat, stmtValue]
  · simp [runScript, List.getLast?_concat, stmtValue]

/-- Claim C7, counterexample: the empty script (zero top-level statements)
fails with the index error of `pop()` on an empty list, which is neither the
syntax-error nor the shape-error kind of the taxonomy. -/
theorem empty_script_error_kind_cex :
    runScript [] [] = .error Err.indexErr ∧
    Err.indexErr ≠ Err.parseFailure ∧ Err.indexErr ≠ Err.shapeFailure :=
  ⟨rfl, by decide, by decide⟩

/-- Claim C7, amended: for the empty script (zero top-level statements),
evaluation fails with an index error (from popping the empty statement list)
before any statement is executed. -/
theorem empty_script_index_error (env : Env) :
    runScript env [] = .error Err.indexErr := rfl

/-- A concrete option state: all six boolean options set to `False`, all six
color slots unset. -/
def optsAllFalse : Opts :=
  { compact := .bool false, raw := .bool false, lines := .bool false,
    nulls := .bool false, mono := .bool false, schema := .bool false,
    keyname_color := .unset, keyword_color := .unset, number_color := .unset,
    string_color := .unset, arrayid_color := .unset, arraybracket_color := .unset }

/-- Like `optsAllFalse`, but with `compact` unset (Python `None`). -/
def optsUnsetCompact : Opts := { optsAllFalse with compact := .unset }

/-- Claim C1, counterexample: with `compact` unset and the other five boolean
options set to `False`, the prelude `raw = True` leaves every one of the six
boolean options a boolean or unset, yet the validation bulk-resets all six
and records a boolean-option warning — `isinstance(None, bool)` is false, so
an unset option triggers the reset even though nothing was set to a
non-boolean value. -/
theorem bool_unset_triggers_reset_cex :
    ((boolOpts (setOption optsUnsetCompact "raw" (PVal.bool true))).all
        fun p => p.isBool || p == PVal.unset) = true ∧
    (processPrelude optsUnsetCompact [CStmt.assign "raw" (PVal.bool true)]).2 =
      [Warning.options] ∧
    boolOpts (processPrelude optsUnsetCompact [CStmt.assign "raw" (PVal.bool true)]).1 =
      [PVal.unset, PVal.unset, PVal.unset, PVal.unset, PVal.unset, PVal.unset] := by
  decide

/-- Claim C1, amended: the per-assignment validation pass bulk-resets the six
boolean options to unset and records one boolean-option warning exactly when
at least one of them is not a boolean after the assignment is applied (an
unset option counts as non-boolean); when all six are booleans, the pass
leaves them unchanged and records no boolean-option warning. -/
theorem bool_option_validation_step (o : Opts) (ws : List Warning)
    (t : String) (v : PVal) :
    if (boolOpts (setOption o t v)).all PVal.isBool then
      boolOpts (procStmt (o, ws) (CStmt.assign t v)).1 = boolOpts (setOption o t v) ∧
      List.count Warning.options (procStmt (o, ws) (CStmt.assign t v)).2 =
        List.count Warning.options ws
    else
      boolOpts (procStmt (o, ws) (CStmt.assign t v)).1 =
        [PVal.unset, PVal.unset, PVal.unset, PVal.unset, PVal.unset, PVal.unset] ∧
      List.count Warning.options (procStmt (o, ws) (CStmt.assign t v)).2 =
        List.count Warning.options ws + 1 := by
  by_cases h : ((boolOpts (setOption o t v)).all PVal.isBool) = true
  · rw [if_pos h]
    constructor
    · simp only [procStmt, validateStep, any_not_eq_not_all, h]
      simp only [Bool.not_true, Bool.false_eq_true, if_false]
      split
      · exact boolOpts_resetColors _
      · rfl
    · simp only [procStmt, validateStep, any_not_eq_not_all, h]
      simp only [Bool.not_true, Bool.false_eq_true, if_false, List.count_append]
      split <;> simp [List.count_cons, List.count_nil]
  · rw [if_neg h]
    have h' : (boolOpts (setOption o t v)).all PVal.isBool = false :=
      Bool.eq_false_iff.mpr h
    constructor
    · simp only [procStmt, validateStep, any_not_eq_not_all, h']
      simp only [Bool.not_false, if_true]
      split
      · exact boolOpts_resetColors _
      · rfl
    · simp only [procStmt, validateStep, any_not_eq_not_all, h']
      simp only [Bool.not_false, if_true, List.count_append]
      split <;> simp [List.count_cons, List.count_nil]

/-- Claim C3, counterexample: starting from all six boolean options `False`,
the two-assignment prelude `compact = "yes"; raw = True` records TWO
boolean-option warnings, not one — the validation block runs inside the
per-assignment loop, and after the first reset the still-unset options
re-trigger it on the second assignment. -/
theorem bool_warning_per_assignment_cex :
    List.count Warning.options
      (processPrelude optsAllFalse
        [CStmt.assign "compact" (PVal.str "yes"),
         CStmt.assign "raw" (PVal.bool true)]).2 = 2 := by
  decide

/-- Claim C3, amended: one boolean-option warning is recorded per assignment
statement whose validation pass finds a non-boolean among the six boolean
options (and none for other statements), so a prelude can record several such
warnings, one for each offending assignment. -/
theorem bool_warning_count_step (o : Opts) (ws : List Warning) (s : CStmt) :
    List.count Warning.options (procStmt (o, ws) s).2 =
      List.count Warning.options ws +
        (match s with
         | CStmt.other => 0
         | CStmt.assign t v =>
             if (boolOpts (setOption o t v)).all PVal.isBool then 0 else 1) := by
  cases s with
  | other => simp [procStmt]
  | assign t v =>
    simp only [procStmt, validateStep, any_not_eq_not_all, List.count_append]
    by_cases h : ((boolOpts (setOption o t v)).all PVal.isBool) = true
    · simp only [h, Bool.not_true, Bool.false_eq_true, if_false, if_pos h,
        List.nil_append]
      split <;> simp [List.count_cons, List.count_nil]
    · have h' : (boolOpts (setOption o t v)).all PVal.isBool = false :=
        Bool.eq_false_iff.mpr h
      simp only [h', Bool.not_false, if_true, if_neg h]
      split <;> simp [List.count_cons, List.count_nil]

/-- Claim C4, counterexample: starting from all-`False` booleans and unset
colors, the prelude `keyname_color = "foo"; keyword_color = "bar"` records
TWO color warnings, not exactly one — the per-assignment validation
re-triggers on the second invalid color assignment. -/
theorem color_warning_count_cex :
    List.count Warning.colors
      (processPrelude optsAllFalse
        [CStmt.assign "keyname_color" (PVal.str "foo"),
         CStmt.assign "keyword_color" (PVal.str "bar")]).2 = 2 := by
  decide

/-- Claim C4, amended: the per-assignment validation pass bulk-resets the six
color options to unset and records one color warning exactly when at least
one of them is outside the sixteen recognized color names and not unset;
when every slot is a recognized color name or unset, the pass leaves the
color slots unchanged and records no color warning. -/
theorem color_option_validation_step (o : Opts) (ws : List Warning)
    (t : String) (v : PVal) :
    if (colorOpts (setOption o t v)).all PVal.colorOk then
      colorOpts (procStmt (o, ws) (CStmt.assign t v)).1 = colorOpts (setOption o t v) ∧
      List.count Warning.colors (procStmt (o, ws) (CStmt.assign t v)).2 =
        List.count Warning.colors ws
    else
      colorOpts (procStmt (o, ws) (CStmt.assign t v)).1 =
        [PVal.unset, PVal.unset, PVal.unset, PVal.unset, PVal.unset, PVal.unset] ∧
      List.count Warning.colors (procStmt (o, ws) (CStmt.assign t v)).2 =
        List.count Warning.colors ws + 1 := by
  have hc : ∀ b : Bool,
      colorOpts (if b = true then resetBools (setOption o t v)
                 else setOption o t v) = colorOpts (setOption o t v) := by
    intro b
    split
    · exact colorOpts_resetBools _
    · rfl
  by_cases h : ((colorOpts (setOption o t v)).all PVal.colorOk) = true
  · rw [if_pos h]
    constructor
    · simp only [procStmt, validateStep, any_not_eq_not_all, hc, h]
      simp only [Bool.not_true, Bool.false_eq_true, if_false]
      exact hc _
    · simp only [procStmt, validateStep, any_not_eq_not_all, hc, h]
      simp only [Bool.not_true, Bool.false_eq_true, if_false, List.count_append]
      split <;> simp [List.count_cons, List.count_nil]
  · rw [if_neg h]
    have h' : (colorOpts (setOption o t v)).all PVal.colorOk = false :=
      Bool.eq_false_iff.mpr h
    constructor
    · simp only [procStmt, validateStep, any_not_eq_not_all, hc, h']
      simp only [Bool.not_false, if_true]
      split <;> rfl
    · simp only [procStmt, validateStep, any_not_eq_not_all, hc, h']
      simp only [Bool.not_false, if_true, List.count_append]
      split <;> simp [List.count_cons, List.count_nil]

/-- Claim C8: for every scalar JSON value, wrapping it (scalars pass through
unwrapped), evaluating the identity query `_` over it, and normalizing the
result yields the value itself unchanged — round-trip identity. -/
theorem scalar_roundtrip (v : JSONValue) (h : v.isScalar = true) :
    pyqueryRun v [TopStmt.exprStmt (PyExpr.var "_")] = .ok (embed v) := by
  cases v with
  | null => rfl
  | bool b => rfl
  | num n => rfl
  | str s => rfl
  | arr xs => simp [JSONValue.isScalar] at h
  | obj kvs => simp [JSONValue.isScalar] at h

/-- Witness for C8 at the concrete scalar `42`. -/
theorem scalar_roundtrip_witness :
    JSONValue.isScalar (JSONValue.num 42) = true ∧
    pyqueryRun (JSONValue.num 42) [TopStmt.exprStmt (PyExpr.var "_")] =
      .ok (embed (JSONValue.num 42)) :=
  ⟨rfl, scalar_roundtrip (JSONValue.num 42) rfl⟩
